import Mathlib

/-!
# Verification of the claude-code-monorepo backend specification

A shallow embedding of the backend's security- and API-level logic
(FastAPI service under `services/backend/app`), together with proofs
of the specification's claims about it.

Conventions used throughout:
* Python strings are Lean `String`s; per-character operations go through
  `String.data` (`List Char`).  The character-class predicates
  (`isupper`/`islower`/`isdigit`) are modelled by the ASCII classifiers,
  which agree with Python on the ASCII inputs the claims are about.
* Wall-clock instants are integers (seconds); Python's float timestamps
  are modelled at integer resolution.
* Fallible endpoints return `Except`; an `HTTPException` becomes an
  error constructor carrying the relevant data.
-/

/-! ## Generic list helpers (substring and initial-segment tests) -/

/-- Predicate `listStarts p l`: true when `p` is an initial segment of `l`
(the component-level analogue of Python's `str.startswith`). -/
def listStarts [BEq α] : List α → List α → Bool
  | [], _ => true
  | _ :: _, [] => false
  | a :: as, b :: bs => a == b && listStarts as bs

/-- Predicate `listHasSub p l`: true when `p` occurs contiguously inside `l`
(the analogue of Python's `in` test on strings). -/
def listHasSub [BEq α] (p : List α) : List α → Bool
  | [] => p.isEmpty
  | b :: bs => listStarts p (b :: bs) || listHasSub p bs

/-- Python's `str.startswith`, modelled character by character. -/
def pyStartswith (s pre : String) : Bool :=
  listStarts pre.data s.data

/-- Python's `needle in haystack` on strings, modelled character by character. -/
def pyContains (haystack needle : String) : Bool :=
  listHasSub needle.data haystack.data

/-- Python's `str.lower`, modelled as the character list of the lowercased
string (ASCII case mapping, which agrees with Python on ASCII input). -/
def pyLowerData (s : String) : List Char :=
  s.data.map Char.toLower

namespace Security

/-!
## `app/auth/security.py`

`is_password_strong` accumulates a list of human-readable issues and
accepts the password exactly when that list is empty.
-/

/-- The special-character alphabet of `is_password_strong`
(`!@#$%^&*()_+-=[]\x7b\x7d|;:,.<>?` in the source). -/
def special_chars : String := "!@#$%^&*()_+-=[]\x7b\x7d|;:,.<>?"

/-- The fixed block-list of common substrings, in source order. -/
def common_patterns : List String :=
  ["password", "123456", "qwerty", "admin", "letmein",
   "welcome", "monkey", "dragon", "master", "abc123"]

/-- The `issues` list accumulated by `is_password_strong`, in the order
the source appends them.  The `for pattern ... break` loop over
`common_patterns` appends at most one issue, for the first pattern that
occurs in the lowercased password. -/
def passwordIssues (password : String) : List String :=
  (if password.length < 8 then
    ["Password must be at least 8 characters long"] else [])
  ++ (if password.length > 72 then
    ["Password must not exceed 72 characters"] else [])
  ++ (if password.data.any Char.isUpper then [] else
    ["Password must contain at least one uppercase letter"])
  ++ (if password.data.any Char.isLower then [] else
    ["Password must contain at least one lowercase letter"])
  ++ (if password.data.any Char.isDigit then [] else
    ["Password must contain at least one number"])
  ++ (if password.data.any (fun c => special_chars.data.contains c) then [] else
    ["Password must contain at least one special character"])
  ++ (match common_patterns.find? (fun pat => listHasSub pat.data (pyLowerData password)) with
      | some pat => ["Password contains common pattern: " ++ pat]
      | none => [])

/-- Function `is_password_strong` returns `(len(issues) == 0, issues)`. -/
def is_password_strong (password : String) : Bool × List String :=
  ((passwordIssues password).length == 0, passwordIssues password)

end Security

namespace Cache

/-!
## `app/services/cache.py`

`CacheManager` keeps two dictionaries, `cache` (key → value) and
`expiry_times` (key → expiry instant).  `get` consults and lazily prunes
the expiry map; `exists` consults only `cache`.  The wall clock
(`datetime.now()`) is passed explicitly as `now`.
-/

structure CacheManager (V : Type) where
  cache : String → Option V
  expiry_times : String → Option Int

/-- The empty cache (`CacheManager.__init__`). -/
def CacheManager.init (V : Type) : CacheManager V :=
  { cache := fun _ => none, expiry_times := fun _ => none }

/-- Operation `get`: return the live value; if the key has an expiry in the past,
delete the entry (from both maps) and return nothing. -/
def CacheManager.get (s : CacheManager V) (now : Int) (key : String) :
    Option V × CacheManager V :=
  match s.cache key with
  | some v =>
    match s.expiry_times key with
    | some t =>
      if now > t then
        (none,
         { cache := fun k => if k = key then none else s.cache k,
           expiry_times := fun k => if k = key then none else s.expiry_times k })
      else (some v, s)
    | none => (some v, s)
  | none => (none, s)

/-- Operation `set`: store the value; record an expiry instant unless `expire`
is falsy (`if expire:` in the source, so `expire = 0` records none). -/
def CacheManager.set (s : CacheManager V) (now : Int) (key : String) (value : V)
    (expire : Int) : CacheManager V :=
  { cache := fun k => if k = key then some value else s.cache k,
    expiry_times :=
      if expire ≠ 0 then
        fun k => if k = key then some (now + expire) else s.expiry_times k
      else s.expiry_times }

/-- Operation `delete`: remove the key from both maps, reporting whether it was present. -/
def CacheManager.delete (s : CacheManager V) (key : String) :
    Bool × CacheManager V :=
  if (s.cache key).isSome then
    (true,
     { cache := fun k => if k = key then none else s.cache k,
       expiry_times := fun k => if k = key then none else s.expiry_times k })
  else (false, s)

/-- Operation `exists`: membership in the `cache` dictionary only (named `existsKey`
here because `exists` is a Lean keyword). -/
def CacheManager.existsKey (s : CacheManager V) (key : String) : Bool :=
  (s.cache key).isSome

/-- Operation `clear`: drop both dictionaries. -/
def CacheManager.clear (_s : CacheManager V) : CacheManager V :=
  CacheManager.init V

end Cache

namespace MCP

/-!
## `app/services/mcp.py` — `MCPManager.get_enabled_tools`

The resolution hierarchy: start from the global allow-list file
(`global-tools.json`), then apply the project configuration
(`projects/{project_id}/tools.json`), then the user preferences.
A missing file / absent preference dictionary is an `Option.none`.
Python `set`s become `Finset String`.
-/

/-- Shape of both `tools.json` files and the user-preference dictionary:
a replace-everything flag (`override_global` for projects, `override_all`
for users) plus enable/disable lists. -/
structure ToolsConfig where
  override : Bool
  enabled_tools : List String
  disabled_tools : List String

/-- One hierarchy stage: replace the set entirely when the override flag
is set; otherwise union the enabled tools and subtract the disabled ones. -/
def applyConfig (enabled : Finset String) (cfg : ToolsConfig) : Finset String :=
  if cfg.override then cfg.enabled_tools.toFinset
  else (enabled ∪ cfg.enabled_tools.toFinset) \ cfg.disabled_tools.toFinset

/-- Method `MCPManager.get_enabled_tools`: global allow-list, then project
override, then user preferences.  (The global file carries only
`enabled_tools`; a missing stage leaves the set unchanged.) -/
def get_enabled_tools (globalTools : Option (List String))
    (projectCfg : Option ToolsConfig) (userPrefs : Option ToolsConfig) :
    Finset String :=
  let enabled : Finset String := ∅
  let enabled := match globalTools with
    | some ts => enabled ∪ ts.toFinset
    | none => enabled
  let enabled := match projectCfg with
    | some cfg => applyConfig enabled cfg
    | none => enabled
  match userPrefs with
  | some prefs => applyConfig enabled prefs
  | none => enabled

end MCP

namespace RateLimit

/-!
## `app/core/rate_limit.py` — `RateLimitMiddleware.check_memory_rate_limit`

Sliding-window limiter.  The per-client state is the list of recorded
request timestamps; `check_rate_limit` computes
`window_start = current_time - period` and dispatches here (the Redis
variant runs the same algorithm over stringified timestamps).
Result: `((allowed, remaining, reset_timestamp), new_state)`.
-/

/-- Python's `min(...)` over a non-empty list (`min([])` raises, which the
source can only reach with `requests_limit = 0`). -/
def listMin : List Int → Int
  | [] => 0
  | x :: xs => xs.foldl min x

/-- Method `check_memory_rate_limit`. -/
def check_memory_rate_limit (requests_limit : Nat) (period : Int)
    (state : List Int) (current_time : Int) :
    (Bool × Nat × Int) × List Int :=
  let window_start := current_time - period
  let valid := state.filter (fun ts => window_start < ts)
  if requests_limit ≤ valid.length then
    ((false, 0, listMin valid + period), valid)
  else
    let valid' := valid ++ [current_time]
    ((true, requests_limit - valid'.length, current_time + period), valid')

end RateLimit

namespace Chat

/-!
## `app/api/v1/endpoints/chat.py`

`convert_to_anthropic_messages` turns the OpenAI-style transcript into
an Anthropic system prompt plus message list; `stream_chat_completion`
frames the upstream stream as server-sent events.
-/

/-- A chat message (the optional `name` field of the Pydantic model is
never read by the endpoint code and is omitted). -/
structure ChatMessage where
  role : String
  content : String
deriving DecidableEq

/-- The loop body of `convert_to_anthropic_messages`: a `system` message
overwrites the system prompt, `user`/`assistant` messages are appended
as `{role, content}` dictionaries, anything else is dropped. -/
def convertStep (acc : Option String × List ChatMessage) (msg : ChatMessage) :
    Option String × List ChatMessage :=
  if msg.role = "system" then (some msg.content, acc.2)
  else if msg.role = "user" then
    (acc.1, acc.2 ++ [{ role := "user", content := msg.content }])
  else if msg.role = "assistant" then
    (acc.1, acc.2 ++ [{ role := "assistant", content := msg.content }])
  else acc

/-- Function `convert_to_anthropic_messages`: run the loop, then prepend a
synthetic user turn when the result does not start with one. -/
def convert_to_anthropic_messages (messages : List ChatMessage) :
    Option String × List ChatMessage :=
  let acc := messages.foldl convertStep (none, [])
  let system_prompt := acc.1
  let anthropic_messages := acc.2
  let anthropic_messages :=
    if anthropic_messages ≠ [] ∧
        (anthropic_messages.head?.map ChatMessage.role) ≠ some "user" then
      { role := "user", content := "Continue the conversation." }
        :: anthropic_messages
    else anthropic_messages
  (system_prompt, anthropic_messages)

/-- Spec-side description of the forwarded list: the `user`/`assistant`
messages of the input, verbatim and in order. -/
def specForwarded (messages : List ChatMessage) : List ChatMessage :=
  messages.filter (fun m => m.role = "user" ∨ m.role = "assistant")

/-- Spec-side description of the system prompt: the content of the last
`system`-role message, if any. -/
def specSystemPrompt (messages : List ChatMessage) : Option String :=
  ((messages.filter (fun m => m.role = "system")).getLast?).map
    ChatMessage.content

/-- Spec-side description of the injection step: prepend the synthetic
user turn exactly when the list is non-empty and starts with a
non-`user` turn. -/
def specInject (l : List ChatMessage) : List ChatMessage :=
  if l ≠ [] ∧ (l.head?.map ChatMessage.role) ≠ some "user" then
    { role := "user", content := "Continue the conversation." } :: l
  else l

/-!
### `stream_chat_completion`

The upstream stream is a list of Anthropic events; only
`content_block_delta` events carry text.  Each emitted SSE line is
`"data: " ++ body ++ "\n\n"` where `body` is the `json.dumps` rendering
of an OpenAI-style chunk.  The chunk `id` is the request id, `created`
is the emission clock (modelled as one instant), `model` the requested
model.
-/

inductive UpEvent where
  | contentBlockDelta (text : String)
  | otherEvent
deriving DecidableEq

/-- The texts of the upstream content deltas, in order. -/
def deltaTexts (events : List UpEvent) : List String :=
  events.filterMap fun e =>
    match e with
    | .contentBlockDelta t => some t
    | .otherEvent => none

/-- Entry `choices[0]` of a chunk: index, delta content (none models the empty
`{}` delta of the final chunk) and finish reason. -/
structure ChunkChoice where
  index : Nat
  deltaContent : Option String
  finish_reason : Option String
deriving DecidableEq

/-- An OpenAI-style streaming chunk, exactly the dictionary the source
builds. -/
structure Chunk where
  id : String
  object : String
  created : Int
  model : String
  choices : List ChunkChoice
deriving DecidableEq

/-- A content chunk for one upstream delta. -/
def contentChunk (request_id : String) (created : Int) (model text : String) :
    Chunk :=
  { id := request_id, object := "chat.completion.chunk", created := created,
    model := model,
    choices := [{ index := 0, deltaContent := some text,
                  finish_reason := none }] }

/-- The final chunk: empty delta, finish reason `"stop"`. -/
def finalChunk (request_id : String) (created : Int) (model : String) :
    Chunk :=
  { id := request_id, object := "chat.completion.chunk", created := created,
    model := model,
    choices := [{ index := 0, deltaContent := none,
                  finish_reason := some "stop" }] }

/-- One emitted SSE item: a JSON chunk or the literal `[DONE]` marker. -/
inductive SSEItem where
  | chunkItem (c : Chunk)
  | doneItem
deriving DecidableEq

/-- Escaping of `json.dumps` for the characters it always escapes. -/
def jsonEscapeChar (c : Char) : String :=
  if c = '"' then "\\\""
  else if c = '\\' then "\\\\"
  else if c = '\n' then "\\n"
  else if c = '\r' then "\\r"
  else if c = '\t' then "\\t"
  else String.singleton c

/-- A JSON string literal. -/
def jsonStr (s : String) : String :=
  "\"" ++ String.join (s.data.map jsonEscapeChar) ++ "\""

/-- Rendering (`json.dumps`) of the delta object. -/
def renderDelta (deltaContent : Option String) : String :=
  match deltaContent with
  | some t => "\x7b\"content\": " ++ jsonStr t ++ "\x7d"
  | none => "\x7b\x7d"

/-- Rendering (`json.dumps`) of one choice. -/
def renderChoice (c : ChunkChoice) : String :=
  "\x7b\"index\": " ++ toString c.index
    ++ ", \"delta\": " ++ renderDelta c.deltaContent
    ++ ", \"finish_reason\": "
    ++ (match c.finish_reason with
        | some r => jsonStr r
        | none => "null")
    ++ "\x7d"

/-- Rendering (`json.dumps`) of a chunk, keys in source order with the default
`", "` / `": "` separators. -/
def renderChunk (c : Chunk) : String :=
  "\x7b\"id\": " ++ jsonStr c.id
    ++ ", \"object\": " ++ jsonStr c.object
    ++ ", \"created\": " ++ toString c.created
    ++ ", \"model\": " ++ jsonStr c.model
    ++ ", \"choices\": [" ++ String.join (c.choices.map renderChoice) ++ "]"
    ++ "\x7d"

/-- An SSE item as the yielded string. -/
def renderItem : SSEItem → String
  | .chunkItem c => "data: " ++ renderChunk c ++ "\n\n"
  | .doneItem => "data: [DONE]\n\n"

/-- The items `stream_chat_completion` yields: one chunk per upstream
content delta, then the stop chunk, then the `[DONE]` marker. -/
def sseItems (request_id : String) (created : Int) (model : String)
    (events : List UpEvent) : List SSEItem :=
  (events.filterMap fun e =>
    match e with
    | .contentBlockDelta t =>
      some (SSEItem.chunkItem (contentChunk request_id created model t))
    | .otherEvent => none)
  ++ [SSEItem.chunkItem (finalChunk request_id created model),
      SSEItem.doneItem]

/-- Generator `stream_chat_completion` (success path): the yielded strings. -/
def stream_chat_completion (request_id : String) (created : Int)
    (model : String) (events : List UpEvent) : List String :=
  (sseItems request_id created model events).map renderItem

/-- The delta contents carried by a list of SSE items (what a client
concatenates to recover the response text). -/
def itemContents (items : List SSEItem) : List String :=
  items.filterMap fun i =>
    match i with
    | .chunkItem c =>
      match c.choices with
      | [choice] => choice.deltaContent
      | _ => none
    | .doneItem => none

end Chat

namespace Login

/-!
## `app/api/v1/endpoints/auth.py` — `login`

Per-user login flow (the user-lookup, token-issuance and rate-limit
dependencies are outside this claim; token issuance on success is
elided).  `verify_password` is bcrypt verification, modelled as: the
presented password matches the stored credential.
-/

/-- The `users` columns the login flow reads and writes. -/
structure User where
  password_hash : String
  failed_login_attempts : Nat
  locked_until : Option Int
  last_login : Option Int
  is_active : Bool

/-- bcrypt `verify_password`, modelled as credential equality. -/
def verify_password (plain hashed : String) : Bool :=
  plain == hashed

/-- The three login failures, with their HTTP statuses:
401 bad credentials, 423 locked, 403 inactive. -/
inductive LoginError where
  | unauthorized
  | locked (untilTime : Int)
  | inactive
deriving DecidableEq

/-- HTTP status code of each login failure. -/
def LoginError.status : LoginError → Nat
  | .unauthorized => 401
  | .locked _ => 423
  | .inactive => 403

/-- The password/active/reset part of `login`, reached when no lockout is
in force: a wrong password increments the failure counter and locks the
account on the 5th consecutive failure (`now + 30min`); an inactive user
is rejected; otherwise the counter and lockout are reset and `last_login`
is stamped. -/
def loginVerify (u : User) (password : String) (now : Int) :
    Except LoginError Unit × User :=
  if verify_password password u.password_hash then
    if u.is_active then
      (Except.ok (),
       { u with failed_login_attempts := 0, locked_until := none,
                last_login := some now })
    else (Except.error LoginError.inactive, u)
  else
    let attempts := u.failed_login_attempts + 1
    (Except.error LoginError.unauthorized,
     { u with failed_login_attempts := attempts,
              locked_until :=
                if 5 ≤ attempts then some (now + 30 * 60)
                else u.locked_until })

/-- Endpoint `login`: reject with 423 while `locked_until` lies in the future,
otherwise proceed to password verification. -/
def login (u : User) (password : String) (now : Int) :
    Except LoginError Unit × User :=
  match u.locked_until with
  | some t => if now < t then (Except.error (LoginError.locked t), u)
              else loginVerify u password now
  | none => loginVerify u password now

end Login

namespace Files

/-!
## `app/api/v1/endpoints/files.py` — `validate_path`

POSIX paths are modelled lexically as lists of name components of an
absolute path (no symlinks).  `validate_path` joins the workspace root
with the request path (whose leading slashes `lstrip("/")` removed,
leaving a relative component list that may contain `..` and `.`),
resolves it, and accepts it when the *string* rendering of the resolved
path starts with the string rendering of the workspace root — the
`str(resolved_path).startswith(str(workspace))` check of the source.
-/

/-- One step of lexical resolution: `.` and empty components vanish,
`..` pops (staying at the root when already there), names are pushed. -/
def normStep (acc : List String) (c : String) : List String :=
  if c = "" ∨ c = "." then acc
  else if c = ".." then acc.dropLast
  else acc ++ [c]

/-- Resolution (`Path.resolve()`), lexically: process all components from the root. -/
def resolveComps (cs : List String) : List String :=
  cs.foldl normStep []

/-- Rendering (`str()`) of an absolute path: `/`-joined components with a leading
slash (`"/"` for the root itself). -/
def renderAbs (cs : List String) : String :=
  "/" ++ String.intercalate "/" cs

/-- Function `validate_path`: resolve `workspace / path` and require the rendered
resolved path to start with the rendered workspace, else HTTP 403.
`workspace` is the configured `WORKSPACE_DIR` (clean absolute
components); `path` is the request path's components after
`lstrip("/")`. -/
def validate_path (workspace : List String) (path : List String) :
    Except Nat (List String) :=
  let resolved_path := resolveComps (workspace ++ path)
  if pyStartswith (renderAbs resolved_path) (renderAbs workspace) then
    Except.ok resolved_path
  else Except.error 403

/-- Spec-side containment: the resolved path stays inside the workspace
root exactly when the root's components are an initial segment of it. -/
def insideWorkspace (workspace resolved : List String) : Bool :=
  listStarts workspace resolved

end Files

namespace JWT

/-!
## `app/auth/jwt_handler.py` and the `/auth/refresh` endpoint

Tokens are modelled as their decoded claim sets plus the identity of the
RSA key that signed them; `jwt.encode`/`jwt.decode` become construction
and checked destruction of that record.  The `uuid4()` calls of
`create_refresh_token` become explicit fresh-value parameters, and the
wall clock is passed as `now`.  The key-value store (Redis) keeps
`setex` entries with their expiry instants.
-/

/-- Python's `x or default` on an optional list (`None` and `[]` are both
falsy). -/
def pyOrList (x : Option (List String)) (default : List String) :
    List String :=
  match x with
  | none => default
  | some [] => default
  | some l => l

/-- Python's `if not token_family:` guard (`None` and `""` are falsy). -/
def pyOrStr (x : Option String) (default : String) : String :=
  match x with
  | none => default
  | some "" => default
  | some s => s

/-- Python's f-string rendering of an optional value (`None` prints as
`"None"`). -/
def pyStr (x : Option String) : String :=
  match x with
  | none => "None"
  | some s => s

/-- The decoded claim set of a token (claims absent from a given token
kind are `none`; `typ` is the `"type"` claim). -/
structure Claims where
  sub : String
  email : String
  typ : String
  jti : Option String
  family : Option String
  iat : Int
  exp : Int
  iss : String
  aud : List String
  roles : List String
  permissions : List String
deriving DecidableEq

/-- A signed JWT: its claims plus the identity of the signing key. -/
structure SignedToken where
  claims : Claims
  sigKey : Nat
deriving DecidableEq

/-- Configuration of `JWTHandler`: the key pair is modelled by its identity
(verification succeeds only for tokens signed with the handler's key). -/
structure Handler where
  keyId : Nat

def access_token_expire_minutes : Int := 15
def refresh_token_expire_days : Int := 7
def issuer : String := "claude-code-backend"
def audience : List String := ["claude-code-ios", "claude-code-web"]

/-- Method `JWTHandler.create_access_token` (called at instant `now`).
`roles or ["user"]` and `permissions or []` follow Python truthiness. -/
def create_access_token (h : Handler) (now : Int) (user_id email : String)
    (roles permissions : Option (List String)) : SignedToken :=
  { claims :=
      { sub := user_id, email := email, typ := "access",
        jti := none, family := none,
        iat := now, exp := now + access_token_expire_minutes * 60,
        iss := issuer, aud := audience,
        roles := pyOrList roles ["user"],
        permissions := pyOrList permissions [] },
    sigKey := h.keyId }

/-- Method `JWTHandler.create_refresh_token`: the fresh `uuid4()` values for the
token id and (when needed) the family are passed as `freshJti` /
`freshFamily`.  Returns the token and the family id. -/
def create_refresh_token (h : Handler) (now : Int) (user_id email : String)
    (token_family : Option String) (freshJti freshFamily : String) :
    SignedToken × String :=
  let family := pyOrStr token_family freshFamily
  ({ claims :=
      { sub := user_id, email := email, typ := "refresh",
        jti := some freshJti, family := some family,
        iat := now, exp := now + refresh_token_expire_days * 24 * 3600,
        iss := issuer, aud := audience,
        roles := [], permissions := [] },
     sigKey := h.keyId },
   family)

/-- The `audience=` argument the handler passes to `jwt.decode`.
python-jose expects a single string here; the handler passes its whole
`self.audience` *list*. -/
inductive AudienceArg where
  | ofString (s : String)
  | ofList (l : List String)
deriving DecidableEq

/-- python-jose `_validate_aud`'s membership test
`if audience not in audience_claims`, where `audience_claims` is the
token's `aud` claim normalized to a list of strings.  Python's `in`
compares the argument with each element under `==`; a string argument
matches an equal element, while a *list* argument is never `==` to any
string element, so the test fails for every token when a list is
passed. -/
def pyInStrList (x : AudienceArg) (ys : List String) : Bool :=
  match x with
  | .ofString s => ys.contains s
  | .ofList _ => false

/-- Method `JWTHandler.verify_token`: `jwt.decode` pinned to the handler's
public key (signature), with python-jose's audience, issuer and expiry
validation (`JWTClaimsError` is a `JWTError`, caught and turned into
`None`); then the decoded `type` claim must equal the expected type.
The audience check receives `audience=self.audience` — the configured
**list** — which `_validate_aud` never finds among the token's string
audience entries, so this check rejects every token the handler
issues. -/
def verify_token (h : Handler) (now : Int) (token : SignedToken)
    (token_type : String) (verify_exp : Bool) : Option Claims :=
  if token.sigKey ≠ h.keyId then none
  else if ¬ pyInStrList (AudienceArg.ofList audience) token.claims.aud then none
  else if token.claims.iss ≠ issuer then none
  else if verify_exp ∧ token.claims.exp ≤ now then none
  else if token.claims.typ ≠ token_type then none
  else some token.claims

/-!
### The key-value store (Redis) and the `/auth/refresh` endpoint
-/

/-- A Redis-like store: `setex`-written entries with expiry instants. -/
structure Store where
  entries : List (String × String × Int)

def Store.empty : Store := ⟨[]⟩

/-- Operation `redis.get`: the most recent write wins; an entry is visible while
its expiry instant lies in the future. -/
def Store.get (s : Store) (now : Int) (k : String) : Option String :=
  match s.entries.find? (fun e => e.1 == k) with
  | some (_, v, expireAt) => if now < expireAt then some v else none
  | none => none

/-- Operation `redis.setex key ttl value`. -/
def Store.setex (s : Store) (now : Int) (k : String) (ttl : Int)
    (v : String) : Store :=
  ⟨(k, v, now + ttl) :: s.entries⟩

/-- The failures of the `/auth/refresh` endpoint (all HTTP 401). -/
inductive RefreshError where
  | invalidToken
  | familyRevoked
  | replayDetected
  | userNotFound
deriving DecidableEq

/-- The endpoint's success payload: new access and refresh tokens. -/
structure TokenPair where
  access_token : SignedToken
  refresh_token : SignedToken
deriving DecidableEq

/-- The `/auth/refresh` endpoint (`refresh_token` in
`app/api/v1/endpoints/auth.py`): verify the refresh token; when a store
is attached, reject a revoked family, treat an already-used `jti` as a
replay (revoking the whole family), and mark the presented `jti` used;
then look up the user and issue a new access/refresh pair in the same
family.  `userActive user_id` models the database lookup succeeding with
an active user (whose roles/permissions are not tracked here). -/
def refresh_endpoint (h : Handler) (userActive : String → Bool)
    (store : Option Store) (now : Int) (freshJti freshFamily : String)
    (tok : SignedToken) : Except RefreshError TokenPair × Option Store :=
  match verify_token h now tok "refresh" true with
  | none => (Except.error RefreshError.invalidToken, store)
  | some payload =>
    let user_id := payload.sub
    let token_family := payload.family
    let token_id := payload.jti
    match store with
    | some st =>
      if (st.get now ("revoked_family:" ++ pyStr token_family)).isSome then
        (Except.error RefreshError.familyRevoked, some st)
      else if (st.get now ("used_token:" ++ pyStr token_id)).isSome then
        (Except.error RefreshError.replayDetected,
         some (st.setex now ("revoked_family:" ++ pyStr token_family)
                (7 * 24 * 3600) "1"))
      else
        let st2 := st.setex now ("used_token:" ++ pyStr token_id)
          (7 * 24 * 3600) "1"
        if userActive user_id then
          (Except.ok
            { access_token :=
                create_access_token h now user_id payload.email none none,
              refresh_token :=
                (create_refresh_token h now user_id payload.email
                  token_family freshJti freshFamily).1 },
           some st2)
        else (Except.error RefreshError.userNotFound, some st2)
    | none =>
      if userActive user_id then
        (Except.ok
          { access_token :=
              create_access_token h now user_id payload.email none none,
            refresh_token :=
              (create_refresh_token h now user_id payload.email
                token_family freshJti freshFamily).1 },
         none)
      else (Except.error RefreshError.userNotFound, none)

end JWT

/-! ## Theorems -/

section ListLemmas

theorem listStarts_trans [BEq α] [LawfulBEq α] :
    ∀ {a b c : List α}, listStarts a b = true → listStarts b c = true →
      listStarts a c = true
  | [], _, _, _, _ => rfl
  | _ :: _, [], _, h1, _ => by simp [listStarts] at h1
  | _ :: _, _ :: _, [], _, h2 => by simp [listStarts] at h2
  | a :: as, b :: bs, c :: cs, h1, h2 => by
    simp only [listStarts, Bool.and_eq_true, beq_iff_eq] at h1 h2 ⊢
    exact ⟨h1.1.trans h2.1, listStarts_trans h1.2 h2.2⟩

theorem listHasSub_of_listStarts [BEq α] [LawfulBEq α] {a b : List α}
    (h1 : listStarts a b = true) :
    ∀ {l : List α}, listHasSub b l = true → listHasSub a l = true := by
  intro l
  induction l with
  | nil =>
    intro h2
    simp only [listHasSub, List.isEmpty_iff] at h2 ⊢
    subst h2
    cases a with
    | nil => rfl
    | cons x xs => simp [listStarts] at h1
  | cons x xs ih =>
    intro h2
    simp only [listHasSub, Bool.or_eq_true] at h2 ⊢
    cases h2 with
    | inl h => exact Or.inl (listStarts_trans h1 h)
    | inr h => exact Or.inr (ih h)

end ListLemmas

section SecurityLemmas

/-- Any password whose issue list is non-empty is rejected. -/
theorem Security.fst_false_of_mem_issues (p m : String)
    (hm : m ∈ Security.passwordIssues p) :
    (Security.is_password_strong p).1 = false := by
  unfold Security.is_password_strong
  have hne : Security.passwordIssues p ≠ [] := List.ne_nil_of_mem hm
  simp only [beq_eq_false_iff_ne, ne_eq]
  exact fun h => hne (List.length_eq_zero.mp h)

/-- A 73-character password always receives the max-length issue. -/
theorem Security.len73_mem_issues (p : String) (h : p.length = 73) :
    "Password must not exceed 72 characters" ∈ Security.passwordIssues p := by
  unfold Security.passwordIssues
  rw [h]
  simp

/-- If the lowercased password contains `password123`, the block-list scan
fires on its first pattern, `password`. -/
theorem Security.password123_issue (p : String)
    (h : listHasSub "password123".data (pyLowerData p) = true) :
    "Password contains common pattern: password" ∈ Security.passwordIssues p := by
  have hstarts : listStarts "password".data "password123".data = true := by decide
  have hsub : listHasSub "password".data (pyLowerData p) = true :=
    listHasSub_of_listStarts hstarts h
  unfold Security.passwordIssues Security.common_patterns
  rw [List.find?_cons_of_pos _ (by exact hsub)]
  simp

end SecurityLemmas

/-- C3 (amended): the password-strength check **rejects** `"Abc12345!"`
(it contains the block-listed pattern `abc123`); rejects `"abcdefgh"`
reporting at least 3 violated rules; rejects any 73-character password;
and rejects any password containing the substring `"password123"`
(case-insensitively) for the common-pattern rule. -/
theorem c3_password_strength :
    Security.is_password_strong "Abc12345!" =
      (false, ["Password contains common pattern: abc123"])
    ∧ ((Security.is_password_strong "abcdefgh").1 = false
        ∧ 3 ≤ (Security.is_password_strong "abcdefgh").2.length)
    ∧ (∀ p : String, p.length = 73 → (Security.is_password_strong p).1 = false)
    ∧ (∀ p : String, listHasSub "password123".data (pyLowerData p) = true →
        (Security.is_password_strong p).1 = false
        ∧ "Password contains common pattern: password" ∈
            (Security.is_password_strong p).2) := by
  refine ⟨rfl, ?_, ?_, ?_⟩
  · have h : Security.is_password_strong "abcdefgh" =
        (false, ["Password must contain at least one uppercase letter",
                 "Password must contain at least one number",
                 "Password must contain at least one special character"]) := rfl
    rw [h]
    exact ⟨rfl, by norm_num⟩
  · intro p hp
    exact Security.fst_false_of_mem_issues p _ (Security.len73_mem_issues p hp)
  · intro p hp
    have hm := Security.password123_issue p hp
    exact ⟨Security.fst_false_of_mem_issues p _ hm, hm⟩

/-- C3 counterexample: the claim says `"Abc12345!"` is accepted, but the
check rejects it (the common-pattern rule fires on `abc123`). -/
theorem c3_counterexample :
    (Security.is_password_strong "Abc12345!").1 = false := rfl

/-- C3 witness: the amended claim applied at concrete inputs. -/
theorem c3_witness :
    (Security.is_password_strong
      "aaaaaaaaaaaaaaaaaaaaaaaaaaaaaaaaaaaaaaaaaaaaaaaaaaaaaaaaaaaaaaaaaaaaaaaaa").1
        = false
    ∧ (Security.is_password_strong "xPassword123!Z").1 = false :=
  ⟨c3_password_strength.2.2.1 _ rfl,
   (c3_password_strength.2.2.2 "xPassword123!Z" (by decide)).1⟩

/-- C10 (confirmed): expiry is enforced lazily and inconsistently.  After
`set key v expire` (with a truthy expire) and once the expiry instant has
passed, `get` returns nothing and removes the entry, after which `exists`
is false; but before any `get`/`delete`/`clear` touches the key, `exists`
still reports the key and the value is still stored.  `exists` reads only
the `cache` dictionary, never the expiry map. -/
theorem c10_cache_lazy_expiry (V : Type) (s : Cache.CacheManager V)
    (key : String) (v : V) (expire now now' : Int)
    (hexp : expire ≠ 0) (hlate : now + expire < now') :
    ((s.set now key v expire).get now' key).1 = none
    ∧ (((s.set now key v expire).get now' key).2).cache key = none
    ∧ (((s.set now key v expire).get now' key).2).existsKey key = false
    ∧ (s.set now key v expire).existsKey key = true
    ∧ (s.set now key v expire).cache key = some v
    ∧ ((s.set now key v expire).delete key).2.cache key = none
    ∧ ((s.set now key v expire).clear).cache key = none
    ∧ (∀ e : String → Option Int,
        (Cache.CacheManager.mk (s.set now key v expire).cache e).existsKey key
          = (s.set now key v expire).existsKey key) := by
  simp only [Cache.CacheManager.get, Cache.CacheManager.set,
    Cache.CacheManager.existsKey, Cache.CacheManager.delete,
    Cache.CacheManager.clear, Cache.CacheManager.init, hexp, if_pos rfl,
    if_neg, ite_true, ite_false]
  simp [hexp, hlate]

/-- C10 witness: the lazy-expiry behaviour at a concrete key and clock. -/
theorem c10_witness :
    ((((Cache.CacheManager.init Nat).set 0 "k" 7 3600).get 4000 "k").1 = none)
    ∧ ((Cache.CacheManager.init Nat).set 0 "k" 7 3600).existsKey "k" = true :=
  ⟨(c10_cache_lazy_expiry Nat (Cache.CacheManager.init Nat) "k" 7 3600 0 4000
      (by norm_num) (by norm_num)).1,
   (c10_cache_lazy_expiry Nat (Cache.CacheManager.init Nat) "k" 7 3600 0 4000
      (by norm_num) (by norm_num)).2.2.2.1⟩

/-- C9 (confirmed): resolution hierarchy of enabled MCP tools.  A global
set `{A,B}` with a non-replacing project config enabling `{C}` and
disabling `{B}` resolves to `{A,C}`; a project config with
`override_global` and enabled `{D}` resolves to `{D}` whatever the global
set; user preferences are then applied the same way on top (`override_all`
replaces, otherwise union of enabled and subtraction of disabled). -/
theorem c9_mcp_tool_resolution :
    MCP.get_enabled_tools (some ["A", "B"])
      (some ⟨false, ["C"], ["B"]⟩) none = {"A", "C"}
    ∧ (∀ (g : Option (List String)) (d : List String),
        MCP.get_enabled_tools g (some ⟨true, ["D"], d⟩) none = {"D"})
    ∧ (∀ (g : Option (List String)) (p : Option MCP.ToolsConfig)
        (prefs : MCP.ToolsConfig),
        MCP.get_enabled_tools g p (some prefs) =
          (if prefs.override then prefs.enabled_tools.toFinset
           else (MCP.get_enabled_tools g p none ∪ prefs.enabled_tools.toFinset)
                  \ prefs.disabled_tools.toFinset)) := by
  refine ⟨?_, ?_, ?_⟩
  · simp only [MCP.get_enabled_tools, MCP.applyConfig]
    decide
  · intro g d
    cases g <;> simp [MCP.get_enabled_tools, MCP.applyConfig]
  · intro g p prefs
    cases g <;> cases p <;>
      simp [MCP.get_enabled_tools, MCP.applyConfig]

/-- C9 witness: the hierarchy applied at concrete configurations. -/
theorem c9_witness :
    MCP.get_enabled_tools (some ["A", "B"]) (some ⟨true, ["D"], ["B"]⟩) none
      = {"D"}
    ∧ MCP.get_enabled_tools (some ["A", "B"]) none (some ⟨true, ["E"], []⟩)
      = (if (true : Bool) then (["E"] : List String).toFinset
         else (MCP.get_enabled_tools (some ["A", "B"]) none none
                ∪ (["E"] : List String).toFinset) \ (List.toFinset [])) :=
  ⟨c9_mcp_tool_resolution.2.1 (some ["A", "B"]) ["B"],
   c9_mcp_tool_resolution.2.2 (some ["A", "B"]) none ⟨true, ["E"], []⟩⟩

/-- C8 (confirmed): sliding-window rate limiting.  Each check first drops
timestamps at or before `now - period`; if at least `limit` remain the
request is rejected with `remaining = 0` and `reset = oldest retained
+ period` (state unchanged); otherwise it is admitted, `now` is recorded,
and `remaining = limit - count` counting the current request.  With
`limit = 3, period = 60` and request times 0, 10, 20, 30, 61: the first
three are admitted with remaining 2, 1, 0, the fourth is rejected with
reset 60, and the request at 61 (after the first timestamp leaves the
window) is admitted again. -/
theorem c8_rate_limit_sliding_window :
    (∀ (limit : Nat) (period : Int) (state : List Int) (now : Int),
      (limit ≤ (state.filter (fun ts => now - period < ts)).length →
        RateLimit.check_memory_rate_limit limit period state now =
          ((false, 0,
            RateLimit.listMin (state.filter (fun ts => now - period < ts))
              + period),
           state.filter (fun ts => now - period < ts)))
      ∧ ((state.filter (fun ts => now - period < ts)).length < limit →
        RateLimit.check_memory_rate_limit limit period state now =
          ((true,
            limit - ((state.filter (fun ts => now - period < ts)).length + 1),
            now + period),
           state.filter (fun ts => now - period < ts) ++ [now])))
    ∧ RateLimit.check_memory_rate_limit 3 60 [] 0 = ((true, 2, 60), [0])
    ∧ RateLimit.check_memory_rate_limit 3 60 [0] 10 = ((true, 1, 70), [0, 10])
    ∧ RateLimit.check_memory_rate_limit 3 60 [0, 10] 20
        = ((true, 0, 80), [0, 10, 20])
    ∧ RateLimit.check_memory_rate_limit 3 60 [0, 10, 20] 30
        = ((false, 0, 60), [0, 10, 20])
    ∧ RateLimit.check_memory_rate_limit 3 60 [0, 10, 20] 61
        = ((true, 0, 121), [10, 20, 61]) := by
  refine ⟨?_, by decide, by decide, by decide, by decide, by decide⟩
  intro limit period state now
  constructor
  · intro h
    simp [RateLimit.check_memory_rate_limit, h]
  · intro h
    simp [RateLimit.check_memory_rate_limit, Nat.not_le.mpr h]

/-- C8 witness: the general step characterization at a concrete state. -/
theorem c8_witness :
    RateLimit.check_memory_rate_limit 2 60 [5, 30] 40
      = ((false, 0, 65), [5, 30]) :=
  ((c8_rate_limit_sliding_window.1 2 60 [5, 30] 40).1 (by decide)).trans
    (by decide)

section ChatLemmas

theorem optOr_assoc (a b c : Option α) : (a.or b).or c = a.or (b.or c) := by
  cases a <;> rfl

/-- What one loop step emits into the forwarded list. -/
def Chat.stepEmit (m : Chat.ChatMessage) : List Chat.ChatMessage :=
  if m.role = "user" then [{ role := "user", content := m.content }]
  else if m.role = "assistant" then
    [{ role := "assistant", content := m.content }]
  else []

theorem Chat.convertStep_fst (acc : Option String × List Chat.ChatMessage)
    (m : Chat.ChatMessage) :
    (Chat.convertStep acc m).1 =
      Option.or (if m.role = "system" then some m.content else none) acc.1 := by
  unfold Chat.convertStep
  by_cases h1 : m.role = "system" <;> by_cases h2 : m.role = "user" <;>
    by_cases h3 : m.role = "assistant" <;> simp_all [Option.or]

theorem Chat.convertStep_snd (acc : Option String × List Chat.ChatMessage)
    (m : Chat.ChatMessage) :
    (Chat.convertStep acc m).2 = acc.2 ++ Chat.stepEmit m := by
  unfold Chat.convertStep Chat.stepEmit
  by_cases h1 : m.role = "system" <;> by_cases h2 : m.role = "user" <;>
    by_cases h3 : m.role = "assistant" <;> simp_all

theorem Chat.specForwarded_cons (m : Chat.ChatMessage)
    (rest : List Chat.ChatMessage) :
    Chat.specForwarded (m :: rest) =
      Chat.stepEmit m ++ Chat.specForwarded rest := by
  unfold Chat.specForwarded Chat.stepEmit
  rcases m with ⟨r, c⟩
  by_cases h2 : r = "user" <;> by_cases h3 : r = "assistant" <;>
    simp_all [List.filter_cons]

theorem getLast?_cons_some (x : α) (xs : List α) :
    ∃ y, (x :: xs).getLast? = some y := by
  induction xs generalizing x with
  | nil => exact ⟨x, rfl⟩
  | cons b bs ih => rw [List.getLast?_cons_cons]; exact ih b

/-- Unfolding `specSystemPrompt` over a cons cell: the tail's last system
message wins over the head. -/
theorem Chat.specSystemPrompt_cons (m : Chat.ChatMessage)
    (rest : List Chat.ChatMessage) :
    Chat.specSystemPrompt (m :: rest) =
      Option.or (Chat.specSystemPrompt rest)
        (if m.role = "system" then some m.content else none) := by
  unfold Chat.specSystemPrompt
  by_cases hm : m.role = "system"
  · rw [if_pos hm]
    have hf : List.filter (fun m => decide (m.role = "system")) (m :: rest)
        = m :: List.filter (fun m => decide (m.role = "system")) rest := by
      simp [List.filter_cons, hm]
    rw [hf]
    cases hrest : (List.filter (fun m => decide (m.role = "system")) rest) with
    | nil => simp [Option.or]
    | cons x xs =>
      rw [List.getLast?_cons_cons]
      obtain ⟨y, hy⟩ := getLast?_cons_some x xs
      rw [hy]
      simp [Option.or]
  · rw [if_neg hm]
    have hf : List.filter (fun m => decide (m.role = "system")) (m :: rest)
        = List.filter (fun m => decide (m.role = "system")) rest := by
      simp [List.filter_cons, hm]
    rw [hf]
    cases Option.map Chat.ChatMessage.content
        (List.filter (fun m => decide (m.role = "system")) rest).getLast? <;>
      simp [Option.or]

/-- The loop of `convert_to_anthropic_messages`, characterized: the final
system prompt is the last system message's content (falling back to the
accumulator's), and the forwarded messages are appended in order. -/
theorem Chat.convert_foldl_spec (msgs : List Chat.ChatMessage) :
    ∀ acc : Option String × List Chat.ChatMessage,
      msgs.foldl Chat.convertStep acc =
        (Option.or (Chat.specSystemPrompt msgs) acc.1,
         acc.2 ++ Chat.specForwarded msgs) := by
  induction msgs with
  | nil => intro acc; simp [Chat.specSystemPrompt, Chat.specForwarded]
  | cons m rest ih =>
    intro acc
    rw [List.foldl_cons, ih, Chat.specSystemPrompt_cons,
      Chat.specForwarded_cons, Chat.convertStep_fst, Chat.convertStep_snd,
      optOr_assoc, List.append_assoc]

end ChatLemmas

/-- C6 (confirmed): translation of OpenAI-style messages to the upstream
format.  The system prompt is the last `system` message's content,
`user`/`assistant` messages are forwarded verbatim in order, the
synthetic `\x7brole: user, content: "Continue the conversation."\x7d`
turn is prepended exactly when the forwarded list is non-empty and does
not start with a user turn, and an input already starting with a user
turn passes through with no injected turn.  The spec's example
`[system "S", assistant "A"]` translates to system prompt `"S"` with the
synthetic user turn prepended. -/
theorem c6_chat_message_translation :
    (∀ msgs : List Chat.ChatMessage,
      Chat.convert_to_anthropic_messages msgs =
        (Chat.specSystemPrompt msgs,
         Chat.specInject (Chat.specForwarded msgs)))
    ∧ (∀ (msgs : List Chat.ChatMessage) (m : Chat.ChatMessage),
        msgs.head? = some m → m.role = "user" →
        (Chat.convert_to_anthropic_messages msgs).2 = Chat.specForwarded msgs)
    ∧ Chat.convert_to_anthropic_messages
        [{ role := "system", content := "S" },
         { role := "assistant", content := "A" }] =
        (some "S",
         [{ role := "user", content := "Continue the conversation." },
          { role := "assistant", content := "A" }]) := by
  have hmain : ∀ msgs : List Chat.ChatMessage,
      Chat.convert_to_anthropic_messages msgs =
        (Chat.specSystemPrompt msgs,
         Chat.specInject (Chat.specForwarded msgs)) := by
    intro msgs
    unfold Chat.convert_to_anthropic_messages Chat.specInject
    rw [Chat.convert_foldl_spec]
    simp [optOr_assoc]
  refine ⟨hmain, ?_, by decide⟩
  intro msgs m hhead hrole
  rw [hmain]
  cases msgs with
  | nil => simp at hhead
  | cons m0 rest =>
    simp only [List.head?_cons, Option.some.injEq] at hhead
    subst hhead
    rw [Chat.specForwarded_cons]
    unfold Chat.specInject Chat.stepEmit
    simp [hrole]

/-- C6 witness: a transcript beginning with a user turn is forwarded
without an injected turn. -/
theorem c6_witness :
    (Chat.convert_to_anthropic_messages
      [{ role := "user", content := "hi" },
       { role := "assistant", content := "hello" }]).2 =
      Chat.specForwarded
        [{ role := "user", content := "hi" },
         { role := "assistant", content := "hello" }] :=
  c6_chat_message_translation.2.1
    [{ role := "user", content := "hi" },
     { role := "assistant", content := "hello" }]
    { role := "user", content := "hi" } rfl rfl

section SSELemmas

/-- Pushing a delta-only `filterMap` through `deltaTexts`. -/
theorem Chat.filterMap_delta {α : Type} (g : String → α)
    (events : List Chat.UpEvent) :
    (events.filterMap fun e =>
      match e with
      | .contentBlockDelta t => some (g t)
      | .otherEvent => none) = (Chat.deltaTexts events).map g := by
  induction events with
  | nil => rfl
  | cons e rest ih =>
    cases e <;> simp [Chat.deltaTexts, List.filterMap_cons, ih]

/-- The delta contents of the emitted items are exactly the upstream
delta texts (the stop chunk and the `[DONE]` marker contribute none). -/
theorem Chat.itemContents_sseItems (request_id : String) (created : Int)
    (model : String) (events : List Chat.UpEvent) :
    Chat.itemContents (Chat.sseItems request_id created model events) =
      Chat.deltaTexts events := by
  unfold Chat.sseItems Chat.itemContents
  rw [List.filterMap_append]
  rw [Chat.filterMap_delta
    (fun t => Chat.SSEItem.chunkItem (Chat.contentChunk request_id created model t))]
  rw [List.filterMap_map]
  have h2 : List.filterMap
      (fun i =>
        match i with
        | Chat.SSEItem.chunkItem c =>
          match c.choices with
          | [choice] => choice.deltaContent
          | _ => none
        | Chat.SSEItem.doneItem => none)
      [Chat.SSEItem.chunkItem (Chat.finalChunk request_id created model),
       Chat.SSEItem.doneItem] = [] := rfl
  rw [h2, List.append_nil]
  exact List.filterMap_some _

end SSELemmas

/-- C7 (confirmed): SSE framing.  For an upstream stream with `n` content
deltas the generator emits exactly `n + 2` strings: one chunk per delta
(whose single choice carries the delta text and a null finish reason, and
whose contents concatenate losslessly to the upstream text), then a final
chunk with an empty delta and finish reason `"stop"`, then the literal
`data: [DONE]` terminator; every emitted string has the exact form
`"data: " ++ body ++ "\n\n"`. -/
theorem c7_sse_streaming_framing (request_id : String) (created : Int)
    (model : String) (events : List Chat.UpEvent) :
    (Chat.stream_chat_completion request_id created model events).length
      = (Chat.deltaTexts events).length + 2
    ∧ Chat.stream_chat_completion request_id created model events =
        (Chat.deltaTexts events).map (fun t =>
          "data: "
            ++ Chat.renderChunk (Chat.contentChunk request_id created model t)
            ++ "\n\n")
        ++ ["data: "
              ++ Chat.renderChunk (Chat.finalChunk request_id created model)
              ++ "\n\n",
            "data: [DONE]\n\n"]
    ∧ Chat.itemContents (Chat.sseItems request_id created model events)
        = Chat.deltaTexts events
    ∧ (∀ t : String,
        (Chat.contentChunk request_id created model t).choices
          = [{ index := 0, deltaContent := some t, finish_reason := none }])
    ∧ (Chat.finalChunk request_id created model).choices
        = [{ index := 0, deltaContent := none, finish_reason := some "stop" }]
    ∧ (∀ line ∈ Chat.stream_chat_completion request_id created model events,
        ∃ body, line = "data: " ++ body ++ "\n\n") := by
  have hchar : Chat.stream_chat_completion request_id created model events =
      (Chat.deltaTexts events).map (fun t =>
        "data: "
          ++ Chat.renderChunk (Chat.contentChunk request_id created model t)
          ++ "\n\n")
      ++ ["data: "
            ++ Chat.renderChunk (Chat.finalChunk request_id created model)
            ++ "\n\n",
          "data: [DONE]\n\n"] := by
    unfold Chat.stream_chat_completion Chat.sseItems
    rw [List.map_append,
      Chat.filterMap_delta
        (fun t => Chat.SSEItem.chunkItem
          (Chat.contentChunk request_id created model t)),
      List.map_map]
    rfl
  refine ⟨?_, hchar,
    Chat.itemContents_sseItems request_id created model events,
    fun t => rfl, rfl, ?_⟩
  · rw [hchar]
    simp
  · intro line hline
    rw [hchar] at hline
    rcases List.mem_append.mp hline with h | h
    · rcases List.mem_map.mp h with ⟨t, _, ht⟩
      exact ⟨Chat.renderChunk (Chat.contentChunk request_id created model t),
        ht.symm⟩
    · rcases List.mem_cons.mp h with h | h
      · exact ⟨Chat.renderChunk (Chat.finalChunk request_id created model),
          by rw [h]⟩
      · rw [List.mem_singleton.mp h]
        exact ⟨"[DONE]", rfl⟩

/-- C7 witness: the framing theorem at a concrete 3-delta stream, and
the line-shape conjunct applied to the concrete terminator line. -/
theorem c7_witness :
    (Chat.stream_chat_completion "chatcmpl-1" 0 "m"
      [Chat.UpEvent.contentBlockDelta "He",
       Chat.UpEvent.otherEvent,
       Chat.UpEvent.contentBlockDelta "ll",
       Chat.UpEvent.contentBlockDelta "o"]).length = 5
    ∧ ∃ body, "data: [DONE]\n\n" = "data: " ++ body ++ "\n\n" := by
  constructor
  · have h := (c7_sse_streaming_framing "chatcmpl-1" 0 "m"
      [Chat.UpEvent.contentBlockDelta "He",
       Chat.UpEvent.otherEvent,
       Chat.UpEvent.contentBlockDelta "ll",
       Chat.UpEvent.contentBlockDelta "o"]).1
    simpa using h
  · exact (c7_sse_streaming_framing "x" 0 "m" []).2.2.2.2.2
      "data: [DONE]\n\n" (by decide)

/-- C5 (confirmed): account lockout.  Starting from an active user with a
clean failure counter, four consecutive failed logins are each rejected
as bad credentials (401) and leave the account unlocked and usable (a
correct password still succeeds); the fifth failure sets `locked_until`
to `now + 30min`; while that instant lies in the future every attempt is
rejected with the distinct Locked error (423); once it has passed, a
correct password succeeds, resets the failure counter to 0, clears the
lockout and stamps `last_login`. -/
theorem c5_account_lockout
    (hash bad good : String) (last0 : Option Int) (t1 t2 t3 t4 t5 : Int)
    (hbad : bad ≠ hash) (hgood : good = hash) :
    Login.login ⟨hash, 0, none, last0, true⟩ bad t1
      = (Except.error Login.LoginError.unauthorized,
         ⟨hash, 1, none, last0, true⟩)
    ∧ Login.login ⟨hash, 1, none, last0, true⟩ bad t2
      = (Except.error Login.LoginError.unauthorized,
         ⟨hash, 2, none, last0, true⟩)
    ∧ Login.login ⟨hash, 2, none, last0, true⟩ bad t3
      = (Except.error Login.LoginError.unauthorized,
         ⟨hash, 3, none, last0, true⟩)
    ∧ Login.login ⟨hash, 3, none, last0, true⟩ bad t4
      = (Except.error Login.LoginError.unauthorized,
         ⟨hash, 4, none, last0, true⟩)
    ∧ (∀ t : Int,
        (Login.login ⟨hash, 4, none, last0, true⟩ good t).1 = Except.ok ())
    ∧ Login.login ⟨hash, 4, none, last0, true⟩ bad t5
      = (Except.error Login.LoginError.unauthorized,
         ⟨hash, 5, some (t5 + 30 * 60), last0, true⟩)
    ∧ (∀ (pw : String) (t : Int), t < t5 + 30 * 60 →
        (Login.login ⟨hash, 5, some (t5 + 30 * 60), last0, true⟩ pw t).1
          = Except.error (Login.LoginError.locked (t5 + 30 * 60)))
    ∧ (Login.LoginError.locked (t5 + 30 * 60)).status = 423
    ∧ Login.LoginError.unauthorized.status = 401
    ∧ (∀ t : Int, t5 + 30 * 60 ≤ t →
        Login.login ⟨hash, 5, some (t5 + 30 * 60), last0, true⟩ good t
          = (Except.ok (), ⟨hash, 0, none, some t, true⟩)) := by
  refine ⟨?_, ?_, ?_, ?_, ?_, ?_, ?_, rfl, rfl, ?_⟩
  · simp [Login.login, Login.loginVerify, Login.verify_password,
      beq_iff_eq, hbad]
  · simp [Login.login, Login.loginVerify, Login.verify_password,
      beq_iff_eq, hbad]
  · simp [Login.login, Login.loginVerify, Login.verify_password,
      beq_iff_eq, hbad]
  · simp [Login.login, Login.loginVerify, Login.verify_password,
      beq_iff_eq, hbad]
  · intro t
    simp [Login.login, Login.loginVerify, Login.verify_password,
      beq_iff_eq, hgood]
  · simp [Login.login, Login.loginVerify, Login.verify_password,
      beq_iff_eq, hbad]
  · intro pw t ht
    have ht2 : t < t5 + 1800 := by omega
    simp [Login.login, ht2]
  · intro t ht
    simp [Login.login, Login.loginVerify,
      Login.verify_password, beq_iff_eq, hgood]
    omega

/-- C5 witness: the lockout scenario at concrete credentials and times. -/
theorem c5_witness :
    Login.login ⟨"pw", 4, none, none, true⟩ "x" 100
      = (Except.error Login.LoginError.unauthorized,
         ⟨"pw", 5, some (100 + 30 * 60), none, true⟩)
    ∧ (Login.login ⟨"pw", 5, some (100 + 30 * 60), none, true⟩ "pw" 200).1
      = Except.error (Login.LoginError.locked (100 + 30 * 60))
    ∧ Login.login ⟨"pw", 5, some (100 + 30 * 60), none, true⟩ "pw" 2000
      = (Except.ok (), ⟨"pw", 0, none, some 2000, true⟩) :=
  ⟨(c5_account_lockout "pw" "x" "pw" none 0 0 0 0 100
      (by decide) rfl).2.2.2.2.2.1,
   (c5_account_lockout "pw" "x" "pw" none 0 0 0 0 100
      (by decide) rfl).2.2.2.2.2.2.1 "pw" 200 (by norm_num),
   (c5_account_lockout "pw" "x" "pw" none 0 0 0 0 100
      (by decide) rfl).2.2.2.2.2.2.2.2.2 2000 (by norm_num)⟩

/-- C4 (code bug): the workspace sandbox check.  With root `/workspace`
the traversal `../../../etc/passwd` resolves to `/etc/passwd` and is
rejected 403 — but the containment test is a *string*-prefix check
(`str(resolved).startswith(str(workspace))`), so `../workspace2/secret`
resolves to `/workspace2/secret`, which escapes the root yet is accepted;
likewise with root `/e` the claimed `../../../etc/passwd` request
resolves to `/etc/passwd` and is accepted. -/
theorem c4_path_traversal :
    Files.validate_path ["workspace"] ["..", "..", "..", "etc", "passwd"]
      = Except.error 403
    ∧ Files.validate_path ["workspace"] ["..", "workspace2", "secret"]
      = Except.ok ["workspace2", "secret"]
    ∧ Files.insideWorkspace ["workspace"] ["workspace2", "secret"] = false
    ∧ Files.validate_path ["e"] ["..", "..", "..", "etc", "passwd"]
      = Except.ok ["etc", "passwd"]
    ∧ Files.insideWorkspace ["e"] ["etc", "passwd"] = false := by
  refine ⟨?_, ?_, ?_, ?_, ?_⟩ <;> rfl

section JWTLemmas

/-- Verification fails for every token: the audience check compares the
handler's audience *list* against the token's string audience entries
and never matches (python-jose `_validate_aud` raises
`JWTClaimsError("Invalid audience")`, caught as `JWTError`). -/
theorem JWT.verify_token_none (h : JWT.Handler) (now : Int)
    (tok : JWT.SignedToken) (ty : String) (ve : Bool) :
    JWT.verify_token h now tok ty ve = none := by
  unfold JWT.verify_token
  by_cases h1 : tok.sigKey ≠ h.keyId
  · rw [if_pos h1]
  · rw [if_neg h1, if_pos (by simp [JWT.pyInStrList])]

end JWTLemmas

/-- C2 (code bug): the access-token round trip can never succeed.
`create_access_token` mints a token whose `aud` is the handler's
audience list, but `verify_token` calls `jwt.decode` with that same
*list* as the `audience=` argument; python-jose accepts only a string
there, so verification returns no payload for **every** token, whether
the expected type is `"access"` or `"refresh"` — never the round-tripped
`sub`/`email`/`roles`/`permissions` payload the claim (and the spec's
stated verification behaviour) requires. -/
theorem c2_roundtrip_always_fails (h : JWT.Handler) (now : Int)
    (uid email : String) (roles perms : Option (List String)) :
    JWT.verify_token h now
      (JWT.create_access_token h now uid email roles perms) "access" true
      = none
    ∧ JWT.verify_token h now
        (JWT.create_access_token h now uid email roles perms) "refresh" true
      = none
    ∧ (∀ (tok : JWT.SignedToken) (ty : String) (ve : Bool),
        JWT.verify_token h now tok ty ve = none) :=
  ⟨JWT.verify_token_none h now _ "access" true,
   JWT.verify_token_none h now _ "refresh" true,
   fun tok ty ve => JWT.verify_token_none h now tok ty ve⟩

/-- C1 (code bug): refresh rotation can never succeed.  The
`/auth/refresh` endpoint begins with
`verify_token(refresh_token, "refresh")`, which rejects every token
(see `JWT.verify_token_none`), so every rotation request — including the
very first use of a freshly issued refresh token, with or without a
key-value store attached — fails as an invalid token (HTTP 401), the
store is left untouched, and the replay-protection path is never
reached. -/
theorem c1_refresh_always_invalid (h : JWT.Handler)
    (userActive : String → Bool) (store : Option JWT.Store) (now : Int)
    (j f : String) (tok : JWT.SignedToken) :
    JWT.refresh_endpoint h userActive store now j f tok
      = (Except.error JWT.RefreshError.invalidToken, store) := by
  unfold JWT.refresh_endpoint
  rw [JWT.verify_token_none]
